import Mathlib

/-!
Shallow embedding of the combat / progression core of the threeJsPlayground
auto-battler (CombatManager, SkillManager, PassiveManager, GearManager,
ProgressionManager).  TypeScript `number` is modelled as `ℚ` (all the
arithmetic the claims touch is exact on rationals; `Math.floor` becomes
`Int.floor`), and the in-place mutation of the TypeScript classes becomes
explicit state passing.  Maps keyed by id become association lists kept in
insertion order, which matches the iteration order of a JavaScript `Map`.
-/

namespace ThreeJs

/-- `CombatStats` from CombatTypes.ts. -/
structure CombatStats where
  level : ℚ
  maxHealth : ℚ
  currentHealth : ℚ
  attack : ℚ
  defense : ℚ
  speed : ℚ
  maxEnergy : ℚ
  currentEnergy : ℚ
deriving DecidableEq, Repr

/-- `CombatEntity` from CombatTypes.ts; the 3-component position is dropped
because none of the embedded operations below (attack / skill / progression)
read it — only the movement and targeting code does. -/
structure CombatEntity where
  id : String
  name : String
  stats : CombatStats
  isPlayer : Bool
deriving DecidableEq, Repr

/-- `CombatState` from CombatTypes.ts. -/
inductive CombatState where
  | WAITING
  | IN_PROGRESS
  | VICTORY
  | DEFEAT
deriving DecidableEq, Repr

/-- `SkillType` from SkillData.ts. -/
inductive SkillType where
  | ATTACK
  | HEAL
  | BUFF
  | DEBUFF
deriving DecidableEq, Repr

/-- `TargetType` from SkillData.ts. -/
inductive TargetType where
  | SELF
  | SINGLE_ENEMY
  | ALL_ENEMIES
  | AREA
deriving DecidableEq, Repr

/-- `SkillEffect` from SkillData.ts. -/
structure SkillEffect where
  type : SkillType
  value : ℚ
  duration : Option ℚ := none
  radius : Option ℚ := none
deriving DecidableEq, Repr

/-- `Skill` from SkillData.ts (the cosmetic `description/icon/animation`
fields are dropped). -/
structure Skill where
  id : String
  name : String
  type : SkillType
  targetType : TargetType
  effects : List SkillEffect
  cooldown : ℚ
  currentCooldown : ℚ
  energyCost : ℚ
deriving DecidableEq, Repr

/-- `PassiveTrigger` from PassiveData.ts. -/
inductive PassiveTrigger where
  | ON_ATTACK
  | ON_DAMAGED
  | ON_KILL
  | ON_HEAL
  | PERMANENT
deriving DecidableEq, Repr

/-- `PassiveType` from PassiveData.ts. -/
inductive PassiveType where
  | STAT_BOOST
  | LIFE_STEAL
  | DAMAGE_REFLECT
  | CRIT_CHANCE
  | DODGE_CHANCE
  | HEAL_BOOST
deriving DecidableEq, Repr

/-- `PassiveEffect` from PassiveData.ts. -/
structure PassiveEffect where
  type : PassiveType
  value : ℚ
  chance : Option ℚ := none
  duration : Option ℚ := none
deriving DecidableEq, Repr

/-- `Passive` from PassiveData.ts (cosmetic fields dropped). -/
structure Passive where
  id : String
  name : String
  trigger : PassiveTrigger
  effects : List PassiveEffect
  level : ℚ
  maxLevel : ℚ
deriving DecidableEq, Repr

/-- One entry of `PassiveResult.effects` from PassiveData.ts. -/
structure PassiveEffectResult where
  type : PassiveType
  value : ℚ
deriving DecidableEq, Repr

/-- `PassiveResult` from PassiveData.ts (source/target/message metadata
dropped — the combat code only reads `effects`). -/
structure PassiveResult where
  passive : Passive
  triggered : Bool
  effects : List PassiveEffectResult
deriving DecidableEq, Repr

/-- One entry of `SkillResult.effects` from SkillData.ts. -/
structure SkillEffectApp where
  target : CombatEntity
  effect : SkillEffect
  value : ℚ
deriving DecidableEq, Repr

/-- `SkillResult` from SkillData.ts (the `message` string is dropped). -/
structure SkillResult where
  success : Bool
  targets : List CombatEntity
  effects : List SkillEffectApp
deriving DecidableEq, Repr

/-! ## SkillManager (from the file also holding CharacterCustomizationUI) -/

/-- `SkillManager.calculateSkillEffect`:
`Math.floor(baseValue * (source.attack/100) * (1 - target.defense/100))`. -/
def calculateSkillEffect (baseValue : ℚ) (source target : CombatEntity) : ℚ :=
  let attackMultiplier := source.stats.attack / 100
  let defenseMultiplier := target.stats.defense / 100
  (Int.floor (baseValue * attackMultiplier * (1 - defenseMultiplier)) : ℚ)

/-- The full outcome of `SkillManager.executeSkill`: the returned
`SkillResult` together with the post-state of the mutated skill (cooldown)
and source (energy); the targets are returned unchanged because
`executeSkill` never writes to them. -/
structure ExecuteSkillOut where
  result : SkillResult
  skill : Skill
  source : CombatEntity
  targets : List CombatEntity
deriving DecidableEq, Repr

/-- `SkillManager.executeSkill`: fail closed on cooldown or energy, else
produce one effect per (target × skill.effects) pair, reset the cooldown and
deduct the energy cost. -/
def executeSkill (skill : Skill) (source : CombatEntity)
    (targets : List CombatEntity) : ExecuteSkillOut :=
  if 0 < skill.currentCooldown then
    ⟨⟨false, [], []⟩, skill, source, targets⟩
  else if source.stats.currentEnergy < skill.energyCost then
    ⟨⟨false, [], []⟩, skill, source, targets⟩
  else
    let effects := (targets.map (fun target =>
      skill.effects.map (fun effect =>
        SkillEffectApp.mk target effect
          (calculateSkillEffect effect.value source target)))).flatten
    let skill' := { skill with currentCooldown := skill.cooldown }
    let source' := { source with stats :=
      { source.stats with currentEnergy := source.stats.currentEnergy - skill.energyCost } }
    ⟨⟨true, targets, effects⟩, skill', source', targets⟩

/-! ## ProgressionManager (ProgressionTypes.ts and ProgressionManager) -/

/-- `MetaUpgradeType` from ProgressionTypes.ts. -/
inductive MetaUpgradeType where
  | DAMAGE_BOOST
  | HEALTH_BOOST
  | DEFENSE_BOOST
  | SPEED_BOOST
  | RESOURCE_GAIN
  | XP_GAIN
  | ENERGY_BOOST
  | SKILL_COOLDOWN
deriving DecidableEq, Repr

/-- `MetaUpgrade` from ProgressionTypes.ts (cosmetic fields dropped).
`cost` is an integer: the initial costs are integers and every purchase
floors the escalated cost. -/
structure MetaUpgrade where
  id : String
  type : MetaUpgradeType
  value : ℚ
  cost : ℤ
  maxLevel : ℕ
  currentLevel : ℕ
deriving DecidableEq, Repr

/-- `RunStats.result` values (the TypeScript union `'VICTORY' | 'DEFEAT'`). -/
inductive RunResult where
  | VICTORY
  | DEFEAT
deriving DecidableEq, Repr

/-- `RunStats` from ProgressionTypes.ts. -/
structure RunStats where
  runId : String
  startTime : ℤ
  endTime : ℤ
  enemiesDefeated : ℕ
  damageDealt : ℚ
  damageTaken : ℚ
  resourcesGained : ℤ
  result : RunResult
  difficulty : ℚ
  wave : ℕ
deriving DecidableEq, Repr

/-- The slice of `PlayerProgress` the embedded operations read and write;
`metaUpgrades` is the `Map<string, MetaUpgrade>` as an insertion-ordered
association list (the ids are the `MetaUpgrade.id` fields). -/
structure PlayerProgress where
  totalRuns : ℕ
  resources : ℤ
  metaUpgrades : List MetaUpgrade
deriving DecidableEq, Repr

/-- The mutable state of a `ProgressionManager`: the optional current run
plus the persistent progress record. -/
structure ProgressionState where
  currentRun : Option RunStats
  progress : PlayerProgress
deriving DecidableEq, Repr

/-- `ProgressionManager.getMetaUpgradeEffect`: the first upgrade of the given
type contributes `value * currentLevel`; `0` if none exists. -/
def getMetaUpgradeEffect (ups : List MetaUpgrade) (t : MetaUpgradeType) : ℚ :=
  match ups.find? (fun u => u.type == t) with
  | some u => u.value * (u.currentLevel : ℚ)
  | none => 0

/-- `ProgressionManager.calculateResourceGain`:
`Math.floor(enemyLevel * 5 * (1 + resourceGainEffect))`. -/
def calculateResourceGain (ups : List MetaUpgrade) (enemyLevel : ℚ) : ℤ :=
  let baseGain := enemyLevel * 5
  let resourceMultiplier := 1 + getMetaUpgradeEffect ups MetaUpgradeType.RESOURCE_GAIN
  Int.floor (baseGain * resourceMultiplier)

/-- The event tags accepted by `ProgressionManager.trackCombatEvent`. -/
inductive CombatEventType where
  | damage_dealt
  | damage_taken
  | enemy_defeated
deriving DecidableEq, Repr

/-- `ProgressionManager.trackCombatEvent`: no-op without a current run;
otherwise accumulate the per-run counter, and for `enemy_defeated` also add
the resource reward computed from the enemy level. -/
def trackCombatEvent (st : ProgressionState) (t : CombatEventType) (value : ℚ) :
    ProgressionState :=
  match st.currentRun with
  | none => st
  | some run =>
    let run' :=
      match t with
      | .damage_dealt => { run with damageDealt := run.damageDealt + value }
      | .damage_taken => { run with damageTaken := run.damageTaken + value }
      | .enemy_defeated =>
        { run with
          enemiesDefeated := run.enemiesDefeated + 1,
          resourcesGained := run.resourcesGained +
            calculateResourceGain st.progress.metaUpgrades value }
    { st with currentRun := some run' }

/-- `ProgressionManager.purchaseUpgrade`: `false` (state unchanged) for an
unknown id, a maxed upgrade, or insufficient resources; otherwise deduct the
current cost, increment the level, and floor the escalated next cost. -/
def purchaseUpgrade (p : PlayerProgress) (upgradeId : String) :
    Bool × PlayerProgress :=
  match p.metaUpgrades.find? (fun u => u.id == upgradeId) with
  | none => (false, p)
  | some u =>
    if u.maxLevel ≤ u.currentLevel ∨ p.resources < u.cost then
      (false, p)
    else
      let u' := { u with
        currentLevel := u.currentLevel + 1,
        cost := Int.floor ((u.cost : ℚ) * (3 / 2 : ℚ)) }
      (true,
        { p with
          resources := p.resources - u.cost,
          metaUpgrades := p.metaUpgrades.map (fun v => if v.id == u.id then u' else v) })

/-! ## CombatManager -/

/-- `CombatManager.calculateDamage`: `Math.max(1, attack - defense)`. -/
def calculateDamage (attacker defender : CombatEntity) : ℚ :=
  let baseDamage := attacker.stats.attack
  let defense := defender.stats.defense
  max 1 (baseDamage - defense)

/-- The stat mutation performed on the target by `CombatManager.handleAttack`
(lines computing `damage` and clamping `currentHealth` at 0). -/
def applyAttackToTarget (attacker target : CombatStats) : CombatStats :=
  let damage := max 1 (attacker.attack - target.defense)
  { target with currentHealth := max 0 (target.currentHealth - damage) }

/-- The outcome of `CombatManager.handleAttack`: the mutated target, the
progression state after event tracking, and whether the target was removed
from the enemy roster. -/
structure AttackOutcome where
  target : CombatEntity
  pm : ProgressionState
  removed : Bool
deriving DecidableEq, Repr

/-- `CombatManager.handleAttack`: apply the clamped base damage, track
`damage_dealt`/`damage_taken`, and if the target's health reached 0 and it is
not the player, track `enemy_defeated` and remove it (animation side effects
are external and dropped). -/
def handleAttack (attacker target : CombatEntity) (pm : ProgressionState) :
    AttackOutcome :=
  let target' := { target with stats := applyAttackToTarget attacker.stats target.stats }
  let pm1 :=
    if attacker.isPlayer then trackCombatEvent pm .damage_dealt (calculateDamage attacker target)
    else trackCombatEvent pm .damage_taken (calculateDamage attacker target)
  if target'.stats.currentHealth ≤ 0 then
    if target'.isPlayer then ⟨target', pm1, false⟩
    else ⟨target', trackCombatEvent pm1 .enemy_defeated target'.stats.level, true⟩
  else ⟨target', pm1, false⟩

/-- `CombatManager.removeEnemy`: `indexOf` + `splice`, i.e. delete the first
occurrence of the entity if present. -/
def removeEnemy (enemies : List CombatEntity) (enemy : CombatEntity) :
    List CombatEntity :=
  enemies.erase enemy

/-- The part of a `CombatManager`'s state the embedded operations touch:
the player, the enemy roster, and the progression manager. -/
structure CombatMState where
  player : CombatEntity
  enemies : List CombatEntity
  pm : ProgressionState
deriving DecidableEq, Repr

/-- `CombatManager.handleAttack` lifted to the manager state: the in-place
mutation of the shared target object is rendered by rewriting the entity
with the target's id in the roster (and the player field when the target is
the player), then applying the roster removal when the target died. -/
def handleAttackInState (st : CombatMState) (attacker target : CombatEntity) :
    CombatMState :=
  let out := handleAttack attacker target st.pm
  let player' := if target.id == st.player.id then out.target else st.player
  let enemiesUpd := st.enemies.map (fun e => if e.id == target.id then out.target else e)
  let enemies' := if out.removed then removeEnemy enemiesUpd out.target else enemiesUpd
  ⟨player', enemies', out.pm⟩

/-- The damage modifier accumulation in the `ATTACK` branch of
`CombatManager.processActions`: `finalDamage *= (1 + effect.value)` over
every effect of every triggered ON_ATTACK passive result. -/
def attackPassiveModifiedDamage (damage : ℚ) (attackPassives : List PassiveResult) : ℚ :=
  attackPassives.foldl
    (fun finalDamage r =>
      r.effects.foldl (fun fd effect => fd * (1 + effect.value)) finalDamage)
    damage

/-- The `ATTACK` branch of `CombatManager.processActions`.  The source
computes `finalDamage` from the ON_ATTACK passive results (passed in here,
since `checkTrigger` rolls `Math.random`) and then calls
`handleAttack(action.source, action.target)`, which recomputes and applies
only the base damage — `finalDamage` is never read again. -/
def processAttackAction (st : CombatMState) (attacker target : CombatEntity)
    (damage : ℚ) (attackPassives : List PassiveResult) : CombatMState :=
  let finalDamage := attackPassiveModifiedDamage damage attackPassives
  let _ := finalDamage
  handleAttackInState st attacker target

/-- `CombatManager.calculateExperienceGain`: sum `level * 10` over the
entities currently in the `enemies` array. -/
def calculateExperienceGain (enemies : List CombatEntity) : ℚ :=
  enemies.foldl (fun total enemy => total + enemy.stats.level * 10) 0

/-- `CombatResult` from CombatTypes.ts (winner and loot dropped; loot
generation is a stub returning `[]`). -/
structure CombatResult where
  state : CombatState
  experienceGained : Option ℚ
deriving DecidableEq, Repr

/-- `CombatManager.checkCombatEnd`: defeat (checked first) when the player's
health is ≤ 0, else victory with the computed experience when every entity
still in the enemies array has health ≤ 0; `none` when combat goes on. -/
def checkCombatEnd (st : CombatMState) : Option CombatResult :=
  if st.player.stats.currentHealth ≤ 0 then
    some ⟨CombatState.DEFEAT, none⟩
  else if st.enemies.all (fun enemy => enemy.stats.currentHealth ≤ 0) then
    some ⟨CombatState.VICTORY, some (calculateExperienceGain st.enemies)⟩
  else none

/-- The `HEAL` case of `CombatManager.handleSkillEffect`: add the effect
value to the target's health, clamped above at `maxHealth` (there is no
clamp below). -/
def handleSkillEffectHeal (value : ℚ) (target : CombatStats) : CombatStats :=
  { target with currentHealth := min target.maxHealth (target.currentHealth + value) }

/-- The stat mutation performed on the effect's target by
`CombatManager.handleSkillEffect`, by effect type: `ATTACK` delegates to the
attack damage path, `HEAL` applies the clamped heal, `BUFF`/`DEBUFF` are
explicit no-op placeholders. -/
def handleSkillEffectStats (source target : CombatStats) (effectType : SkillType)
    (value : ℚ) : CombatStats :=
  match effectType with
  | .ATTACK => applyAttackToTarget source target
  | .HEAL => handleSkillEffectHeal value target
  | .BUFF => target
  | .DEBUFF => target

/-! ## GearManager (GearData.ts types) -/

/-- `GearSlot` from GearData.ts. -/
inductive GearSlot where
  | HEAD
  | CHEST
  | LEGS
  | FEET
  | WEAPON
  | OFFHAND
  | ACCESSORY1
  | ACCESSORY2
deriving DecidableEq, Repr

/-- `GearRarity` from GearData.ts. -/
inductive GearRarity where
  | COMMON
  | UNCOMMON
  | RARE
  | EPIC
  | LEGENDARY
deriving DecidableEq, Repr

/-- `GearStats` from GearData.ts. -/
structure GearStats where
  attack : ℚ
  defense : ℚ
  health : ℚ
  speed : ℚ
  energy : ℚ
deriving DecidableEq, Repr

/-- The all-zero stat block both accumulators start from. -/
def zeroGearStats : GearStats := ⟨0, 0, 0, 0, 0⟩

/-- Componentwise addition of stat blocks (the `+=` loops over
`Object.entries`). -/
def addGearStats (a b : GearStats) : GearStats :=
  ⟨a.attack + b.attack, a.defense + b.defense, a.health + b.health,
    a.speed + b.speed, a.energy + b.energy⟩

/-- `GearItem` from GearData.ts (cosmetic fields dropped). -/
structure GearItem where
  id : String
  slot : GearSlot
  rarity : GearRarity
  level : ℕ
  baseStats : GearStats
  setId : Option String := none
deriving DecidableEq, Repr

/-- One `(pieces, stats)` bonus tier of a `GearSet`. -/
structure GearSetBonus where
  pieces : ℕ
  stats : GearStats
deriving DecidableEq, Repr

/-- `GearSet` from GearData.ts. -/
structure GearSet where
  id : String
  bonuses : List GearSetBonus
deriving DecidableEq, Repr

/-- `GearLoadout`: the fixed map from the 8 slots to an optional item. -/
structure GearLoadout where
  head : Option GearItem := none
  chest : Option GearItem := none
  legs : Option GearItem := none
  feet : Option GearItem := none
  weapon : Option GearItem := none
  offhand : Option GearItem := none
  accessory1 : Option GearItem := none
  accessory2 : Option GearItem := none
deriving DecidableEq, Repr

/-- `Object.values(this.loadout)` in the slot declaration order of the
loadout object literal. -/
def loadoutItems (l : GearLoadout) : List (Option GearItem) :=
  [l.head, l.chest, l.legs, l.feet, l.weapon, l.offhand, l.accessory1, l.accessory2]

/-- One step of the piece counting in `calculateSetBonuses`:
`setPieces.set(setId, (setPieces.get(setId) || 0) + 1)` on an
insertion-ordered map rendered as an association list. -/
def addPiece (counts : List (String × ℕ)) (setId : String) : List (String × ℕ) :=
  if counts.any (fun c => c.1 == setId) then
    counts.map (fun c => if c.1 == setId then (c.1, c.2 + 1) else c)
  else counts ++ [(setId, 1)]

/-- The piece-count map built by `GearManager.calculateSetBonuses` (and
`getActiveSetBonuses`): count equipped items per set id. -/
def countSetPieces (items : List (Option GearItem)) : List (String × ℕ) :=
  items.foldl
    (fun counts it =>
      match it with
      | some g => match g.setId with
        | some setId => addPiece counts setId
        | none => counts
      | none => counts)
    []

/-- `GearManager.calculateSetBonuses`: for each counted set id, add the stat
block of every bonus tier whose piece threshold is ≤ the count. -/
def calculateSetBonuses (gearSets : List GearSet) (loadout : GearLoadout) : GearStats :=
  let setPieces := countSetPieces (loadoutItems loadout)
  setPieces.foldl
    (fun bonuses c =>
      match gearSets.find? (fun s => s.id == c.1) with
      | some s =>
        (s.bonuses.filter (fun bonus => bonus.pieces ≤ c.2)).foldl
          (fun acc bonus => addGearStats acc bonus.stats) bonuses
      | none => bonuses)
    zeroGearStats

/-- The `stats` field of `GearManager.calculateTotalStats`: base stats summed
over equipped items plus the set bonuses (the accompanying
`getActiveSetBonuses` display summary is not modelled). -/
def calculateTotalStats (gearSets : List GearSet) (loadout : GearLoadout) : GearStats :=
  let baseStats := (loadoutItems loadout).foldl
    (fun acc it =>
      match it with
      | some g => addGearStats acc g.baseStats
      | none => acc)
    zeroGearStats
  addGearStats baseStats (calculateSetBonuses gearSets loadout)

/-- The entity mutation of `GearManager.applyGearStats`, factored over the
already-computed stat totals: add every total, clamping current health and
energy at the (already increased) maxima. -/
def applyGearStatsWith (total : GearStats) (s : CombatStats) : CombatStats :=
  { s with
    attack := s.attack + total.attack,
    defense := s.defense + total.defense,
    maxHealth := s.maxHealth + total.health,
    currentHealth := min (s.currentHealth + total.health) (s.maxHealth + total.health),
    speed := s.speed + total.speed,
    maxEnergy := s.maxEnergy + total.energy,
    currentEnergy := min (s.currentEnergy + total.energy) (s.maxEnergy + total.energy) }

/-- `GearManager.applyGearStats`: apply the computed totals to the entity. -/
def applyGearStats (gearSets : List GearSet) (loadout : GearLoadout)
    (s : CombatStats) : CombatStats :=
  applyGearStatsWith (calculateTotalStats gearSets loadout) s

/-! ## PassiveManager application -/

/-- The STAT_BOOST branch of `PassiveManager.applyPermanentPassives`: add the
effect value to attack and defense, ten times the value to max health, and
raise current health by the same amount clamped at the new maximum. -/
def applyStatBoost (value : ℚ) (s : CombatStats) : CombatStats :=
  { s with
    attack := s.attack + value,
    defense := s.defense + value,
    maxHealth := s.maxHealth + value * 10,
    currentHealth := min (s.currentHealth + value * 10) (s.maxHealth + value * 10) }

/-- `PassiveManager.applyPermanentPassives` over the active passive list:
every STAT_BOOST effect of every PERMANENT-trigger passive is applied in
order. -/
def applyPermanentPassives (activePassives : List Passive) (s : CombatStats) :
    CombatStats :=
  (activePassives.filter (fun p => p.trigger == PassiveTrigger.PERMANENT)).foldl
    (fun st p =>
      p.effects.foldl
        (fun st2 e => if e.type == PassiveType.STAT_BOOST then applyStatBoost e.value st2 else st2)
        st)
    s

/-! ## Round ordering (CombatManager.processRound) -/

/-- The sort key of `processRound`: the comparator
`(a, b) => b.stats.speed - a.stats.speed` orders by speed descending. -/
def bySpeedDesc (a b : CombatEntity) : Prop :=
  b.stats.speed ≤ a.stats.speed

instance : DecidableRel bySpeedDesc := fun a b =>
  inferInstanceAs (Decidable (b.stats.speed ≤ a.stats.speed))

/-- The action-generation order of `CombatManager.processRound`: filter the
player-first, spawn-ordered roster to living combatants and stable-sort it
by speed descending (`Array.prototype.sort` is stable, modelled by the
stable `List.insertionSort`). -/
def processRoundOrder (player : CombatEntity) (enemies : List CombatEntity) :
    List CombatEntity :=
  List.insertionSort bySpeedDesc
    ((player :: enemies).filter (fun e => 0 < e.stats.currentHealth))

/-- The invariant the spec states for every `CombatStats` record:
health and energy are nonnegative and bounded by their maxima. -/
def statsInvariant (s : CombatStats) : Prop :=
  0 ≤ s.currentHealth ∧ s.currentHealth ≤ s.maxHealth ∧
    0 ≤ s.currentEnergy ∧ s.currentEnergy ≤ s.maxEnergy

instance (s : CombatStats) : Decidable (statsInvariant s) := by
  unfold statsInvariant; infer_instance

instance : IsTotal CombatEntity bySpeedDesc :=
  ⟨fun a b => le_total b.stats.speed a.stats.speed⟩

instance : IsTrans CombatEntity bySpeedDesc :=
  ⟨fun _ _ _ hab hbc => le_trans hbc hab⟩

/-- The per-(target × effect) value as the spec words it:
`floor(baseValue × (source.attack/100) × (1 − target.defense/100))`. -/
def specSkillEffectValue (baseValue : ℚ) (source target : CombatEntity) : ℚ :=
  (Int.floor (baseValue * (source.stats.attack / 100) *
    (1 - target.stats.defense / 100)) : ℚ)

/-! ## Concrete sample data used by the closed theorems below -/

/-- A fresh run record with all counters at zero. -/
def sampleRun : RunStats := ⟨"run-1", 0, 0, 0, 0, 0, 0, .DEFEAT, 1, 1⟩

/-- A progression state with an active zero-counter run and no purchased
upgrades. -/
def samplePM : ProgressionState := ⟨some sampleRun, ⟨0, 0, []⟩⟩

/-- The spec's end-to-end player: attack 15, defense 10, health 100. -/
def samplePlayer : CombatEntity := ⟨"player", "Hero", ⟨1, 100, 100, 15, 10, 10, 50, 50⟩, true⟩

/-- A level-1 enemy with defense 5 whose remaining health (10) is exactly one
player attack. -/
def sampleEnemy : CombatEntity := ⟨"enemy-1", "Goblin", ⟨1, 50, 10, 10, 5, 12, 0, 0⟩, false⟩

/-- Combat state for the victory-experience scenario: the player against the
single `sampleEnemy`. -/
def sampleCombat : CombatMState := ⟨samplePlayer, [sampleEnemy], samplePM⟩

/-- An attacker with attack 10 used in the passive-modifier scenario. -/
def modAttacker : CombatEntity := ⟨"p", "Hero", ⟨1, 100, 100, 10, 0, 10, 0, 0⟩, true⟩

/-- A defense-0 target with health 100 used in the passive-modifier
scenario. -/
def modTarget : CombatEntity := ⟨"e-mod", "Dummy", ⟨1, 200, 100, 0, 0, 1, 0, 0⟩, false⟩

/-- Combat state for the passive-modifier scenario. -/
def modCombat : CombatMState := ⟨modAttacker, [modTarget], samplePM⟩

/-- A triggered ON_ATTACK passive whose single effect has value 1, i.e. a
declared +100% damage modifier. -/
def modPassiveResult : PassiveResult :=
  ⟨⟨"boost", "Boost", .ON_ATTACK, [⟨.CRIT_CHANCE, 1, none, none⟩], 1, 5⟩,
    true, [⟨.CRIT_CHANCE, 1⟩]⟩

/-- A healer entity with attack 100 (attack multiplier exactly 1). -/
def healSource : CombatEntity := ⟨"p", "Hero", ⟨1, 100, 100, 100, 0, 10, 0, 0⟩, true⟩

/-- A target with defense 200 and health 40/100: its defense multiplier makes
every computed skill-effect value negative. -/
def healTarget : CombatEntity := ⟨"e-tank", "Tank", ⟨1, 100, 40, 0, 200, 1, 0, 0⟩, false⟩

/-- A level-1 enemy that is already at 0 health (for the double-defeat
scenario). -/
def deadEnemy : CombatEntity := ⟨"e-dead", "Ghost", ⟨1, 50, 0, 10, 5, 12, 0, 0⟩, false⟩

/-- A skill currently on cooldown (2 rounds left), from the spec's testable
property. -/
def cooldownSkill : Skill :=
  ⟨"power-strike", "Power Strike", .ATTACK, .SINGLE_ENEMY,
    [⟨.ATTACK, 200, none, none⟩], 3, 2, 30⟩

/-- The same skill off cooldown. -/
def readySkill : Skill :=
  ⟨"power-strike", "Power Strike", .ATTACK, .SINGLE_ENEMY,
    [⟨.ATTACK, 200, none, none⟩], 3, 0, 30⟩

/-- A maxed-out meta upgrade (`currentLevel = maxLevel = 10`). -/
def maxedUpgrade : MetaUpgrade := ⟨"damage-boost", .DAMAGE_BOOST, 1, 100, 10, 10⟩

/-- A purchasable meta upgrade at level 0, cost 100. -/
def freshUpgrade : MetaUpgrade := ⟨"health-boost", .HEALTH_BOOST, 1, 100, 10, 0⟩

/-- Progress holding the maxed and the fresh upgrade with 1000 resources. -/
def sampleProgress : PlayerProgress := ⟨0, 1000, [maxedUpgrade, freshUpgrade]⟩

/-- A warrior-set item in the given slot with the given base stats. -/
def warriorItem (itemId : String) (slot : GearSlot) (stats : GearStats) : GearItem :=
  ⟨itemId, slot, .COMMON, 1, stats, some "warrior"⟩

/-- Four equipped warrior pieces. -/
def warriorLoadout4 (s1 s2 s3 s4 : GearStats) : GearLoadout :=
  { head := some (warriorItem "w-helm" .HEAD s1),
    chest := some (warriorItem "w-chest" .CHEST s2),
    weapon := some (warriorItem "w-sword" .WEAPON s3),
    offhand := some (warriorItem "w-shield" .OFFHAND s4) }

/-- Three equipped warrior pieces. -/
def warriorLoadout3 (s1 s2 s3 : GearStats) : GearLoadout :=
  { head := some (warriorItem "w-helm" .HEAD s1),
    chest := some (warriorItem "w-chest" .CHEST s2),
    weapon := some (warriorItem "w-sword" .WEAPON s3) }

/-- A warrior gear set with a 2-piece and a 4-piece bonus tier. -/
def warriorSet (b2 b4 : GearStats) : GearSet := ⟨"warrior", [⟨2, b2⟩, ⟨4, b4⟩]⟩

/-- The player entity of the round-ordering scenario, speed 10. -/
def speed10Player : CombatEntity := ⟨"p-10", "P", ⟨1, 100, 100, 10, 0, 10, 0, 0⟩, true⟩

/-- Enemy with speed 5 (spawned first). -/
def speed5Enemy : CombatEntity := ⟨"e-5", "A", ⟨1, 100, 100, 10, 0, 5, 0, 0⟩, false⟩

/-- Enemy with speed 15 (spawned second). -/
def speed15Enemy : CombatEntity := ⟨"e-15", "B", ⟨1, 100, 100, 10, 0, 15, 0, 0⟩, false⟩

/-- A dead enemy with top speed: it must be filtered out, not sorted first. -/
def deadFastEnemy : CombatEntity := ⟨"e-dead-99", "D", ⟨1, 100, 0, 10, 0, 99, 0, 0⟩, false⟩

/-- First of two speed-10 enemies used for the tie case. -/
def tieEnemy1 : CombatEntity := ⟨"tie-1", "T1", ⟨1, 100, 100, 10, 0, 10, 0, 0⟩, false⟩

/-- Second of two speed-10 enemies used for the tie case. -/
def tieEnemy2 : CombatEntity := ⟨"tie-2", "T2", ⟨1, 100, 100, 10, 0, 10, 0, 0⟩, false⟩

/-- Attacker of the minimum-damage example: attack 15. -/
def attack15 : CombatEntity := ⟨"a-15", "A15", ⟨1, 100, 100, 15, 0, 10, 0, 0⟩, true⟩

/-- Defender of the minimum-damage example: defense 20. -/
def defense20 : CombatEntity := ⟨"d-20", "D20", ⟨1, 100, 100, 5, 20, 10, 0, 0⟩, false⟩

/-- The default Toughness permanent passive: +10 STAT_BOOST. -/
def toughnessPassive : Passive :=
  ⟨"toughness", "Toughness", .PERMANENT, [⟨.STAT_BOOST, 10, none, none⟩], 1, 5⟩

/-! ## Theorems -/

/-- Claim C9: the base attack damage applied is
`max(1, attacker.attack − target.defense)` — always at least 1, and with
attack 15 against defense 20 it is exactly 1; `handleAttack` subtracts
exactly this amount from the target's health, clamped at 0. -/
theorem C9_minimum_damage :
    (∀ a t : CombatEntity, 1 ≤ calculateDamage a t) ∧
    (∀ a t : CombatEntity, (applyAttackToTarget a.stats t.stats).currentHealth =
      max 0 (t.stats.currentHealth - calculateDamage a t)) ∧
    calculateDamage attack15 defense20 = 1 := by
  refine ⟨fun a t => le_max_left 1 _, fun a t => rfl, ?_⟩
  norm_num [calculateDamage, attack15, defense20, max_def]

/-- Claim C4: `executeSkill` on a skill on cooldown or with an unaffordable
energy cost reports failure and leaves the skill, the source, and the target
list unchanged. -/
theorem C4_executeSkill_fails_closed (skill : Skill) (source : CombatEntity)
    (targets : List CombatEntity)
    (h : 0 < skill.currentCooldown ∨ source.stats.currentEnergy < skill.energyCost) :
    (executeSkill skill source targets).result.success = false ∧
    (executeSkill skill source targets).skill = skill ∧
    (executeSkill skill source targets).source = source ∧
    (executeSkill skill source targets).targets = targets := by
  unfold executeSkill
  rcases h with h | h
  · rw [if_pos h]; exact ⟨rfl, rfl, rfl, rfl⟩
  · by_cases h1 : 0 < skill.currentCooldown
    · rw [if_pos h1]; exact ⟨rfl, rfl, rfl, rfl⟩
    · rw [if_neg h1, if_pos h]; exact ⟨rfl, rfl, rfl, rfl⟩

/-- Witness for C4: a skill with `currentCooldown = 2` fails and mutates
nothing. -/
theorem C4_witness :
    (executeSkill cooldownSkill samplePlayer [sampleEnemy]).result.success = false ∧
    (executeSkill cooldownSkill samplePlayer [sampleEnemy]).skill = cooldownSkill ∧
    (executeSkill cooldownSkill samplePlayer [sampleEnemy]).source = samplePlayer ∧
    (executeSkill cooldownSkill samplePlayer [sampleEnemy]).targets = [sampleEnemy] :=
  C4_executeSkill_fails_closed cooldownSkill samplePlayer [sampleEnemy]
    (Or.inl (by decide))

/-- Claim C5: `executeSkill` off cooldown with affordable cost succeeds,
produces one `(target, effect, value)` triple per (target × skill effect)
pair with the spec's `floor(baseValue × (attack/100) × (1 − defense/100))`
value, deducts the energy cost, and resets the cooldown to the configured
value. -/
theorem C5_executeSkill_success (skill : Skill) (source : CombatEntity)
    (targets : List CombatEntity)
    (hcd : ¬ 0 < skill.currentCooldown)
    (hen : ¬ source.stats.currentEnergy < skill.energyCost) :
    (executeSkill skill source targets).result.success = true ∧
    (executeSkill skill source targets).result.effects =
      (targets.map (fun t => skill.effects.map (fun e =>
        SkillEffectApp.mk t e (specSkillEffectValue e.value source t)))).flatten ∧
    (executeSkill skill source targets).source.stats.currentEnergy =
      source.stats.currentEnergy - skill.energyCost ∧
    (executeSkill skill source targets).skill.currentCooldown = skill.cooldown := by
  unfold executeSkill
  rw [if_neg hcd, if_neg hen]
  exact ⟨rfl, rfl, rfl, rfl⟩

/-- Witness for C5: the ready Power Strike (cooldown 0, cost 30) executed by
the 50-energy player against one enemy. -/
theorem C5_witness :
    (executeSkill readySkill samplePlayer [sampleEnemy]).result.success = true ∧
    (executeSkill readySkill samplePlayer [sampleEnemy]).result.effects =
      (([sampleEnemy] : List CombatEntity).map (fun t => readySkill.effects.map (fun e =>
        SkillEffectApp.mk t e (specSkillEffectValue e.value samplePlayer t)))).flatten ∧
    (executeSkill readySkill samplePlayer [sampleEnemy]).source.stats.currentEnergy =
      samplePlayer.stats.currentEnergy - readySkill.energyCost ∧
    (executeSkill readySkill samplePlayer [sampleEnemy]).skill.currentCooldown =
      readySkill.cooldown :=
  C5_executeSkill_success readySkill samplePlayer [sampleEnemy]
    (by decide) (by decide)

/-- Claim C1 (code bug): in the ATTACK branch of `processActions` the
passive-modified `finalDamage` (here 20, from base damage 10 and one
ON_ATTACK effect of value 1) is computed but discarded — the target loses
only the base 10 health (100 → 90), not the modified 20 (100 → 80). -/
theorem C1_passive_modifier_discarded :
    attackPassiveModifiedDamage (calculateDamage modAttacker modTarget)
      [modPassiveResult] = 20 ∧
    (processAttackAction modCombat modAttacker modTarget
      (calculateDamage modAttacker modTarget) [modPassiveResult]).enemies.map
        (fun e => e.stats.currentHealth) = [90] ∧
    max 0 (modTarget.stats.currentHealth -
      attackPassiveModifiedDamage (calculateDamage modAttacker modTarget)
        [modPassiveResult]) = 80 := by
  norm_num [attackPassiveModifiedDamage, calculateDamage, modAttacker, modTarget,
    modPassiveResult, processAttackAction, handleAttackInState, handleAttack,
    applyAttackToTarget, trackCombatEvent, samplePM, sampleRun, modCombat,
    removeEnemy, calculateResourceGain, getMetaUpgradeEffect, max_def]

/-- Claim C2 (code bug): killing the single level-1 enemy removes it from the
roster before the victory check, so the end state is Victory with
`experienceGained = 0`, although the run did count one defeated enemy and the
claim expects `enemyLevel × 10 = 10`. -/
theorem C2_victory_experience_is_zero :
    checkCombatEnd (handleAttackInState sampleCombat samplePlayer sampleEnemy) =
      some ⟨CombatState.VICTORY, some 0⟩ ∧
    (handleAttackInState sampleCombat samplePlayer sampleEnemy).enemies = [] ∧
    ((handleAttackInState sampleCombat samplePlayer sampleEnemy).pm.currentRun.map
      (fun r => r.enemiesDefeated)) = some 1 ∧
    sampleEnemy.stats.level * 10 = 10 := by
  norm_num +decide [checkCombatEnd, handleAttackInState, handleAttack,
    applyAttackToTarget, trackCombatEvent, calculateDamage, calculateResourceGain,
    getMetaUpgradeEffect, removeEnemy, sampleCombat, samplePlayer, sampleEnemy,
    samplePM, sampleRun, calculateExperienceGain, max_def, List.erase]

/-- Claim C8: round action generation keeps only living combatants and
stable-sorts them by speed descending: the order is pairwise
speed-descending, is a permutation of the living filter of the player-first
roster, sorts speeds [10, 5, 15] as [15, 10, 5] (dropping a dead speed-99
enemy), and keeps the original relative order on speed ties. -/
theorem C8_round_ordering :
    (∀ (p : CombatEntity) (es : List CombatEntity),
      (processRoundOrder p es).Pairwise bySpeedDesc) ∧
    (∀ (p : CombatEntity) (es : List CombatEntity),
      (processRoundOrder p es).Perm
        ((p :: es).filter (fun e => 0 < e.stats.currentHealth))) ∧
    (processRoundOrder speed10Player [deadFastEnemy, speed5Enemy, speed15Enemy]).map
      (fun e => e.id) = ["e-15", "p-10", "e-5"] ∧
    (processRoundOrder speed10Player [tieEnemy1, tieEnemy2]).map (fun e => e.id) =
      ["p-10", "tie-1", "tie-2"] := by
  refine ⟨fun p es => List.sorted_insertionSort bySpeedDesc _,
    fun p es => List.perm_insertionSort _ _, by decide, by decide⟩

/-- The attack mutation preserves the health/energy invariant. -/
theorem statsInvariant_applyAttackToTarget (a t : CombatStats)
    (h : statsInvariant t) : statsInvariant (applyAttackToTarget a t) := by
  obtain ⟨h1, h2, h3, h4⟩ := h
  have hd : (1 : ℚ) ≤ max 1 (a.attack - t.defense) := le_max_left 1 _
  simp only [applyAttackToTarget, statsInvariant]
  refine ⟨le_max_left 0 _, max_le (h1.trans h2) (by linarith), h3, h4⟩

/-- A heal with nonnegative value preserves the invariant. -/
theorem statsInvariant_heal (v : ℚ) (t : CombatStats)
    (h : statsInvariant t) (hv : 0 ≤ v) :
    statsInvariant (handleSkillEffectHeal v t) := by
  obtain ⟨h1, h2, h3, h4⟩ := h
  simp only [handleSkillEffectHeal, statsInvariant]
  exact ⟨le_min (h1.trans h2) (by linarith), min_le_left _ _, h3, h4⟩

/-- A stat boost with nonnegative value preserves the invariant. -/
theorem statsInvariant_applyStatBoost (v : ℚ) (s : CombatStats)
    (h : statsInvariant s) (hv : 0 ≤ v) :
    statsInvariant (applyStatBoost v s) := by
  obtain ⟨h1, h2, h3, h4⟩ := h
  have h10 : 0 ≤ v * 10 := by linarith
  simp only [applyStatBoost, statsInvariant]
  exact ⟨le_min (by linarith) (by linarith), min_le_right _ _, h3, h4⟩

/-- Folding the STAT_BOOST effects of one passive preserves the invariant
when every effect value is nonnegative. -/
theorem statsInvariant_effects_foldl (effects : List PassiveEffect) (s : CombatStats)
    (h : statsInvariant s) (hv : ∀ e ∈ effects, 0 ≤ e.value) :
    statsInvariant (effects.foldl
      (fun st2 e => if e.type == PassiveType.STAT_BOOST then applyStatBoost e.value st2 else st2)
      s) := by
  induction effects generalizing s with
  | nil => exact h
  | cons e es ih =>
    have he : 0 ≤ e.value := hv e (List.mem_cons_self e es)
    have hv' : ∀ x ∈ es, 0 ≤ x.value := fun x hx => hv x (List.mem_cons_of_mem e hx)
    simp only [List.foldl_cons]
    by_cases ht : e.type == PassiveType.STAT_BOOST
    · rw [if_pos ht]
      exact ih (applyStatBoost e.value s) (statsInvariant_applyStatBoost e.value s h he) hv'
    · rw [if_neg ht]
      exact ih s h hv'

/-- Folding the per-passive effect application over any passive list
preserves the invariant when every effect value is nonnegative. -/
theorem statsInvariant_passives_foldl (qs : List Passive) (s : CombatStats)
    (h : statsInvariant s) (hv : ∀ p ∈ qs, ∀ e ∈ p.effects, 0 ≤ e.value) :
    statsInvariant (qs.foldl
      (fun st p => p.effects.foldl
        (fun st2 e => if e.type == PassiveType.STAT_BOOST then applyStatBoost e.value st2 else st2)
        st)
      s) := by
  induction qs generalizing s with
  | nil => exact h
  | cons q qs ih =>
    simp only [List.foldl_cons]
    exact ih _
      (statsInvariant_effects_foldl q.effects s h (hv q (List.mem_cons_self q qs)))
      (fun p hp => hv p (List.mem_cons_of_mem q hp))

/-- Applying all permanent passives preserves the invariant when every
declared effect value is nonnegative. -/
theorem statsInvariant_applyPermanentPassives (ps : List Passive) (s : CombatStats)
    (h : statsInvariant s) (hv : ∀ p ∈ ps, ∀ e ∈ p.effects, 0 ≤ e.value) :
    statsInvariant (applyPermanentPassives ps s) :=
  statsInvariant_passives_foldl _ s h
    (fun p hp => hv p (List.mem_of_mem_filter hp))

/-- The gear-stat application preserves the invariant when the health and
energy totals are nonnegative. -/
theorem statsInvariant_applyGearStatsWith (total : GearStats) (s : CombatStats)
    (h : statsInvariant s) (hh : 0 ≤ total.health) (he : 0 ≤ total.energy) :
    statsInvariant (applyGearStatsWith total s) := by
  obtain ⟨h1, h2, h3, h4⟩ := h
  simp only [applyGearStatsWith, statsInvariant]
  exact ⟨le_min (by linarith) (by linarith), min_le_right _ _,
    le_min (by linarith) (by linarith), min_le_right _ _⟩

/-- `executeSkill` preserves the source's invariant when the energy cost is
nonnegative. -/
theorem statsInvariant_executeSkill (skill : Skill) (source : CombatEntity)
    (targets : List CombatEntity)
    (h : statsInvariant source.stats) (hc : 0 ≤ skill.energyCost) :
    statsInvariant (executeSkill skill source targets).source.stats := by
  unfold executeSkill
  by_cases hcd : 0 < skill.currentCooldown
  · rw [if_pos hcd]; exact h
  · rw [if_neg hcd]
    by_cases hen : source.stats.currentEnergy < skill.energyCost
    · rw [if_pos hen]; exact h
    · rw [if_neg hen]
      obtain ⟨h1, h2, h3, h4⟩ := h
      push_neg at hen
      simp only [statsInvariant]
      exact ⟨h1, h2, by linarith, by linarith⟩

/-- Claim C3 (amended): every core `CombatStats` mutation — attack
resolution, skill execution, skill-effect handling (attack / heal /
buff-stub), gear application, permanent-passive application — preserves
`0 ≤ currentHealth ≤ maxHealth` and `0 ≤ currentEnergy ≤ maxEnergy`,
provided the applied magnitudes (energy cost, heal value, gear
health/energy totals, passive boost values) are nonnegative; the heal and
the additive boosts clamp only at the maximum, so the nonnegativity of what
is added is needed for the lower bound. -/
theorem C3_invariants_preserved :
    (∀ a t : CombatStats, statsInvariant t →
      statsInvariant (applyAttackToTarget a t)) ∧
    (∀ (skill : Skill) (source : CombatEntity) (targets : List CombatEntity),
      statsInvariant source.stats → 0 ≤ skill.energyCost →
      statsInvariant (executeSkill skill source targets).source.stats) ∧
    (∀ (s t : CombatStats) (ty : SkillType) (v : ℚ),
      statsInvariant t → 0 ≤ v →
      statsInvariant (handleSkillEffectStats s t ty v)) ∧
    (∀ (total : GearStats) (s : CombatStats),
      statsInvariant s → 0 ≤ total.health → 0 ≤ total.energy →
      statsInvariant (applyGearStatsWith total s)) ∧
    (∀ (ps : List Passive) (s : CombatStats),
      statsInvariant s → (∀ p ∈ ps, ∀ e ∈ p.effects, 0 ≤ e.value) →
      statsInvariant (applyPermanentPassives ps s)) := by
  refine ⟨statsInvariant_applyAttackToTarget, statsInvariant_executeSkill,
    fun s t ty v h hv => ?_, statsInvariant_applyGearStatsWith,
    statsInvariant_applyPermanentPassives⟩
  cases ty with
  | ATTACK => exact statsInvariant_applyAttackToTarget s t h
  | HEAL => exact statsInvariant_heal v t h hv
  | BUFF => exact h
  | DEBUFF => exact h

/-- Counterexample for C3 as stated: the heal path clamps only from above.
A heal skill with base value 50 cast by an attack-100 source on a
defense-200 target computes value `floor(50 × 1 × (1 − 2)) = −50`, and
applying it to a target at 40/100 health (invariant holds) drives
`currentHealth` to −10 < 0. -/
theorem C3_counterexample :
    statsInvariant healTarget.stats ∧
    calculateSkillEffect 50 healSource healTarget = -50 ∧
    ¬ statsInvariant (handleSkillEffectStats healSource.stats healTarget.stats
        SkillType.HEAL (calculateSkillEffect 50 healSource healTarget)) := by
  refine ⟨by decide, ?_, ?_⟩
  · norm_num [calculateSkillEffect, healSource, healTarget]
  · norm_num [calculateSkillEffect, healSource, healTarget, handleSkillEffectStats,
      handleSkillEffectHeal, statsInvariant]

/-- Witness for C3: each preserved mutation at a concrete input. -/
theorem C3_witness :
    statsInvariant (applyAttackToTarget samplePlayer.stats sampleEnemy.stats) ∧
    statsInvariant (executeSkill readySkill samplePlayer [sampleEnemy]).source.stats ∧
    statsInvariant (handleSkillEffectStats samplePlayer.stats samplePlayer.stats
      SkillType.HEAL 5) ∧
    statsInvariant (applyGearStatsWith ⟨5, 5, 20, 0, 10⟩ samplePlayer.stats) ∧
    statsInvariant (applyPermanentPassives [toughnessPassive] samplePlayer.stats) :=
  ⟨C3_invariants_preserved.1 samplePlayer.stats sampleEnemy.stats (by decide),
    C3_invariants_preserved.2.1 readySkill samplePlayer [sampleEnemy]
      (by decide) (by decide),
    C3_invariants_preserved.2.2.1 samplePlayer.stats samplePlayer.stats
      SkillType.HEAL 5 (by decide) (by decide),
    C3_invariants_preserved.2.2.2.1 ⟨5, 5, 20, 0, 10⟩ samplePlayer.stats
      (by decide) (by decide) (by decide),
    C3_invariants_preserved.2.2.2.2 [toughnessPassive] samplePlayer.stats
      (by decide) (by decide)⟩

/-- Updating (by id) the upgrade that `find?` located: the lookup on the
mapped list returns the replacement, provided it keeps the id. -/
theorem find?_map_update (l : List MetaUpgrade) (uid : String) (u u' : MetaUpgrade)
    (hfind : l.find? (fun v => v.id == uid) = some u) (hid : u'.id = u.id) :
    (l.map (fun v => if v.id == u.id then u' else v)).find? (fun v => v.id == uid) =
      some u' := by
  have huid : u.id = uid := by simpa using List.find?_some hfind
  induction l with
  | nil => simp at hfind
  | cons w ws ih =>
    by_cases hw : w.id = uid
    · have hwu : w = u := by
        rw [List.find?_cons_of_pos _ (by simpa using hw)] at hfind
        exact Option.some_inj.mp hfind
      subst hwu
      simp only [List.map_cons]
      rw [List.find?_cons_of_pos _ (by simp [hid, huid])]
      simp
    · have hfind' : ws.find? (fun v => v.id == uid) = some u := by
        rw [List.find?_cons_of_neg _ (by simpa using hw)] at hfind
        exact hfind
      have hwne : (w.id == u.id) = false := by
        simp [huid]
        exact hw
      simp only [List.map_cons, hwne, Bool.false_eq_true, if_false]
      rw [List.find?_cons_of_neg _ (by simpa using hw)]
      exact ih hfind'

/-- Claim C6: `purchaseUpgrade` returns `false` and changes nothing for an
unknown id, a maxed-out upgrade or an unaffordable cost; otherwise it
returns `true`, deducts the current cost, bumps the level, floors the
×1.5-escalated next cost, and leaves every other upgrade in place. -/
theorem C6_purchaseUpgrade_spec (p : PlayerProgress) (uid : String) :
    (p.metaUpgrades.find? (fun v => v.id == uid) = none →
      purchaseUpgrade p uid = (false, p)) ∧
    (∀ u, p.metaUpgrades.find? (fun v => v.id == uid) = some u →
      (u.maxLevel ≤ u.currentLevel ∨ p.resources < u.cost) →
      purchaseUpgrade p uid = (false, p)) ∧
    (∀ u, p.metaUpgrades.find? (fun v => v.id == uid) = some u →
      u.currentLevel < u.maxLevel → u.cost ≤ p.resources →
      (purchaseUpgrade p uid).1 = true ∧
      (purchaseUpgrade p uid).2.resources = p.resources - u.cost ∧
      (purchaseUpgrade p uid).2.metaUpgrades.find? (fun v => v.id == uid) =
        some { u with currentLevel := u.currentLevel + 1,
                      cost := Int.floor ((u.cost : ℚ) * (3 / 2 : ℚ)) } ∧
      ∀ v ∈ p.metaUpgrades, v.id ≠ uid →
        v ∈ (purchaseUpgrade p uid).2.metaUpgrades) := by
  refine ⟨fun hnone => ?_, fun u hfind hfail => ?_, fun u hfind hlv hres => ?_⟩
  · simp only [purchaseUpgrade, hnone]
  · simp only [purchaseUpgrade, hfind, if_pos hfail]
  · have huid : u.id = uid := by simpa using List.find?_some hfind
    have hcond : ¬ (u.maxLevel ≤ u.currentLevel ∨ p.resources < u.cost) :=
      not_or.mpr ⟨not_le.mpr hlv, not_lt.mpr hres⟩
    refine ⟨?_, ?_, ?_, ?_⟩
    · simp only [purchaseUpgrade, hfind, if_neg hcond]
    · simp only [purchaseUpgrade, hfind, if_neg hcond]
    · simp only [purchaseUpgrade, hfind, if_neg hcond]
      exact find?_map_update p.metaUpgrades uid u _ hfind rfl
    · simp only [purchaseUpgrade, hfind, if_neg hcond]
      intro v hv hvne
      have hfv : (fun w => if w.id == u.id then
          { u with currentLevel := u.currentLevel + 1,
                   cost := Int.floor ((u.cost : ℚ) * (3 / 2 : ℚ)) } else w) v = v := by
        have hne : (v.id == u.id) = false := by
          simp [huid]
          exact hvne
        simp [hne]
      exact hfv ▸ List.mem_map_of_mem _ hv

/-- Witness for C6: purchasing the maxed-out damage upgrade fails and leaves
the progress record untouched. -/
theorem C6_witness :
    purchaseUpgrade sampleProgress "damage-boost" = (false, sampleProgress) :=
  (C6_purchaseUpgrade_spec sampleProgress "damage-boost").2.1 maxedUpgrade
    (by decide) (Or.inl (by decide))

/-- Claim C7: set bonuses are cumulative.  With four equipped warrior
pieces, exactly the tiers with threshold ≤ 4 are summed (for the standard
2-piece/4-piece set: both blocks); with three pieces only the tiers with
threshold ≤ 3 (only the 2-piece block); and `calculateTotalStats` adds the
summed item base stats to these bonuses. -/
theorem C7_set_bonuses_cumulative :
    (∀ (tiers : List GearSetBonus) (s1 s2 s3 s4 : GearStats),
      calculateSetBonuses [⟨"warrior", tiers⟩] (warriorLoadout4 s1 s2 s3 s4) =
        (tiers.filter (fun b => b.pieces ≤ 4)).foldl
          (fun acc b => addGearStats acc b.stats) zeroGearStats) ∧
    (∀ (tiers : List GearSetBonus) (s1 s2 s3 : GearStats),
      calculateSetBonuses [⟨"warrior", tiers⟩] (warriorLoadout3 s1 s2 s3) =
        (tiers.filter (fun b => b.pieces ≤ 3)).foldl
          (fun acc b => addGearStats acc b.stats) zeroGearStats) ∧
    (∀ b2 b4 s1 s2 s3 s4 : GearStats,
      calculateSetBonuses [warriorSet b2 b4] (warriorLoadout4 s1 s2 s3 s4) =
        addGearStats (addGearStats zeroGearStats b2) b4) ∧
    (∀ b2 b4 s1 s2 s3 : GearStats,
      calculateSetBonuses [warriorSet b2 b4] (warriorLoadout3 s1 s2 s3) =
        addGearStats zeroGearStats b2) ∧
    (∀ b2 b4 s1 s2 s3 s4 : GearStats,
      calculateTotalStats [warriorSet b2 b4] (warriorLoadout4 s1 s2 s3 s4) =
        addGearStats
          (addGearStats (addGearStats (addGearStats (addGearStats zeroGearStats s1) s2) s3) s4)
          (addGearStats (addGearStats zeroGearStats b2) b4)) :=
  ⟨fun _ _ _ _ _ => rfl, fun _ _ _ _ => rfl, fun _ _ _ _ _ _ => rfl,
    fun _ _ _ _ _ => rfl, fun _ _ _ _ _ _ => rfl⟩

/-- Claim C10: resolving an attack against a non-player target that is
already at 0 health still fires the `enemy_defeated` tracking (the run's
counter goes up by one and the resource reward is added again), so two
lethal queued attacks on the same enemy count it as defeated twice. -/
theorem C10_dead_enemy_recounted :
    (∀ (a t : CombatEntity) (pm : ProgressionState) (run : RunStats),
      t.isPlayer = false → t.stats.currentHealth = 0 → pm.currentRun = some run →
      (handleAttack a t pm).removed = true ∧
      ((handleAttack a t pm).pm.currentRun.map (fun r => r.enemiesDefeated)) =
        some (run.enemiesDefeated + 1) ∧
      ((handleAttack a t pm).pm.currentRun.map (fun r => r.resourcesGained)) =
        some (run.resourcesGained +
          calculateResourceGain pm.progress.metaUpgrades t.stats.level)) ∧
    ((handleAttack samplePlayer
        (handleAttack samplePlayer deadEnemy samplePM).target
        (handleAttack samplePlayer deadEnemy samplePM).pm).pm.currentRun.map
      (fun r => r.enemiesDefeated)) = some 2 := by
  constructor
  · intro a t pm run hP h0 hrun
    have hdmg : (1 : ℚ) ≤ max 1 (a.stats.attack - t.stats.defense) := le_max_left 1 _
    have hh : (applyAttackToTarget a.stats t.stats).currentHealth ≤ 0 := by
      simp only [applyAttackToTarget]
      rw [h0, zero_sub]
      exact max_le le_rfl (by linarith)
    have hlvl : (applyAttackToTarget a.stats t.stats).level = t.stats.level := rfl
    by_cases ha : a.isPlayer = true
    · simp [handleAttack, trackCombatEvent, ha, hP, hrun, hh, hlvl]
    · simp only [Bool.not_eq_true] at ha
      simp [handleAttack, trackCombatEvent, ha, hP, hrun, hh, hlvl]
  · norm_num +decide [handleAttack, applyAttackToTarget, trackCombatEvent,
      calculateResourceGain, getMetaUpgradeEffect, samplePlayer, deadEnemy,
      samplePM, sampleRun, max_def]

/-- Witness for C10: the already-dead `deadEnemy` attacked once more under
the fresh run still increments the defeat counter and re-adds the reward. -/
theorem C10_witness :
    (handleAttack samplePlayer deadEnemy samplePM).removed = true ∧
    ((handleAttack samplePlayer deadEnemy samplePM).pm.currentRun.map
      (fun r => r.enemiesDefeated)) = some (sampleRun.enemiesDefeated + 1) ∧
    ((handleAttack samplePlayer deadEnemy samplePM).pm.currentRun.map
      (fun r => r.resourcesGained)) = some (sampleRun.resourcesGained +
        calculateResourceGain samplePM.progress.metaUpgrades deadEnemy.stats.level) :=
  C10_dead_enemy_recounted.1 samplePlayer deadEnemy samplePM sampleRun
    rfl rfl rfl

end ThreeJs
